import Mathlib

/-!
Shallow embedding of the react-autocomplete widget (filoxo/react-autocomplete).

Sources embedded:
- `src/src/Autocomplete.tsx` : the container component `Autocomplete`
  (expand/collapse state, keydown/focus/blur handlers, ARIA wiring,
  the context value `activeDescendantState`).
- `src/unnamed/part_000` (`ActiveDescendantContext.tsx`) : the context
  default value (fails loudly outside production, degrades silently in
  production).
- `src/unnamed/part_001` (`AutocompleteOption.tsx`) : the option item
  (id fallback, content fallback, mouse handlers, ARIA attributes).

The hook `useTrackActiveDescendant` and the `KeyCode` constants are code of
this repository that is not under src/ (only their callers are); they are
modelled from the spec where noted below.
-/

/-- Modelled from the spec: the file `src/constants` defining `KeyCode` is not
under src/. The spec names the keys arrow-down, arrow-up, escape and enter;
these are the standard DOM `event.key` strings. -/
def KeyCode.DOWN : String := "ArrowDown"

/-- Modelled from the spec: see `KeyCode.DOWN`. -/
def KeyCode.UP : String := "ArrowUp"

/-- Modelled from the spec: see `KeyCode.DOWN`. -/
def KeyCode.ESC : String := "Escape"

/-- Modelled from the spec: see `KeyCode.DOWN`. -/
def KeyCode.ENTER : String := "Enter"

/-- The projection of a keyboard event used by the container: `e.key` and
`e.altKey`. -/
structure KeyEvent where
  key : String
  altKey : Bool
deriving DecidableEq

/-- Modelled from the spec: the hook `useTrackActiveDescendant` is not under
src/. Its state is the currently highlighted option id, `current`
(`string | null`, section 3 of the spec: active-descendant state is
`currentId : string | null`). -/
structure Tracker where
  current : Option String
deriving DecidableEq

/-- Modelled from the spec (4.1): `next()` moves the active id to the option
immediately after the current one in document order; if none is active it
activates the first option; it clamps at the last option (spec 8: the active
id stays at the last option once reached, no wrap). The ordered list of
option ids is read live at each call. If the current id is no longer in the
list the tracker re-validates, behaving as if none were active. -/
def Tracker.next (options : List String) (t : Tracker) : Tracker :=
  if options.isEmpty then t
  else
    match t.current with
    | none => { current := options.head? }
    | some cur =>
      match options.findIdx? (fun o => o == cur) with
      | none => { current := options.head? }
      | some i => { current := options.get? (min (i + 1) (options.length - 1)) }

/-- Modelled from the spec (4.1): `prev()` is symmetric to `next()`, moving
backward and clamping at the first option; with none active it activates the
last option. -/
def Tracker.prev (options : List String) (t : Tracker) : Tracker :=
  if options.isEmpty then t
  else
    match t.current with
    | none => { current := options.getLast? }
    | some cur =>
      match options.findIdx? (fun o => o == cur) with
      | none => { current := options.getLast? }
      | some i => { current := options.get? (i - 1) }

/-- Modelled from the spec (4.1): `clear()` sets the active id to null. -/
def Tracker.clear (_t : Tracker) : Tracker :=
  { current := none }

/-- Modelled from the spec (4.1): `check(id)` returns whether `id` equals the
current active id. -/
def Tracker.check (t : Tracker) (id : String) : Bool :=
  t.current == some id

/-- Modelled from the spec (4.1): `update(id)` externally force-sets the
active id. The container passes `string | undefined`, hence `Option`. -/
def Tracker.update (id : Option String) (_t : Tracker) : Tracker :=
  { current := id }

/-- Modelled from the spec (4.1): `click()` triggers the selection callback
for the currently active id, if any; no-op otherwise. The call itself does
not change the tracker state; any state change flows through the selection
entry point of the container. This function returns the id whose selection
callback fires. -/
def Tracker.click (t : Tracker) : Option String :=
  t.current

/-- The tracker operations the container delegates keystrokes to. -/
inductive TrackerCall where
  | next
  | prev
  | clear
  | click
deriving DecidableEq

/-- Effect of one delegated tracker call on the tracker state, over the live
list of rendered option ids. `click` dispatches the selection callback and
leaves the tracker state itself unchanged (see `Tracker.click`). -/
def applyCall (options : List String) (t : Tracker) : TrackerCall → Tracker
  | TrackerCall.next => Tracker.next options t
  | TrackerCall.prev => Tracker.prev options t
  | TrackerCall.clear => Tracker.clear t
  | TrackerCall.click => t

/-- Result of the keydown dispatch `trackActiveDescendant` in
`Autocomplete.tsx` (lines 79 to 100): the new expanded flag, whether
`e.preventDefault()` was called, and the tracker calls made, in order. -/
structure KeydownResult where
  expanded : Bool
  preventDefault : Bool
  calls : List TrackerCall
deriving DecidableEq

/-- `trackActiveDescendant` from `Autocomplete.tsx` (lines 79 to 100):
while expanded, ArrowDown prevents default and delegates to `next`, ArrowUp
prevents default and delegates to `prev`, Escape collapses and delegates to
`clear`, Enter delegates to `click`; while collapsed, Alt+Enter expands and
nothing else happens. -/
def trackActiveDescendant (expanded : Bool) (e : KeyEvent) : KeydownResult :=
  if expanded then
    if e.key = KeyCode.DOWN then
      { expanded := expanded, preventDefault := true, calls := [TrackerCall.next] }
    else if e.key = KeyCode.UP then
      { expanded := expanded, preventDefault := true, calls := [TrackerCall.prev] }
    else if e.key = KeyCode.ESC then
      { expanded := false, preventDefault := false, calls := [TrackerCall.clear] }
    else if e.key = KeyCode.ENTER then
      { expanded := expanded, preventDefault := false, calls := [TrackerCall.click] }
    else
      { expanded := expanded, preventDefault := false, calls := [] }
  else
    if e.key = KeyCode.ENTER ∧ e.altKey = true then
      { expanded := true, preventDefault := false, calls := [] }
    else
      { expanded := expanded, preventDefault := false, calls := [] }

/-- The per-instance widget state of `Autocomplete`: the `expanded` flag
(`useState(false)`, line 61) and the tracker state. -/
@[ext]
structure WidgetState where
  expanded : Bool
  tracker : Tracker
deriving DecidableEq

/-- Initial widget state: `useState(false)` for `expanded`; the tracker
starts with no active id. -/
def initialWidgetState : WidgetState :=
  { expanded := false, tracker := { current := none } }

/-- `onKeyDownHandler` from `Autocomplete.tsx` (lines 102 to 105) as a state
transformer: it runs `trackActiveDescendant` and applies the delegated
tracker calls to the tracker state. The host `onKeyDown` passthrough does
not touch widget state. -/
def onKeyDownHandlerRun (options : List String) (e : KeyEvent) (s : WidgetState) :
    WidgetState :=
  let r := trackActiveDescendant s.expanded e
  { expanded := r.expanded, tracker := r.calls.foldl (applyCall options) s.tracker }

/-- `onFocusHandler` from `Autocomplete.tsx` (lines 107 to 110):
`setExpanded(autoExpand)`; the host `onFocus` passthrough does not touch
widget state. -/
def onFocusHandlerRun (autoExpand : Bool) (s : WidgetState) : WidgetState :=
  { s with expanded := autoExpand }

/-- `onBlurHandler` from `Autocomplete.tsx` (lines 112 to 115):
`setExpanded(false)`; the host `onBlur` passthrough does not touch widget
state. Note that it does not call any tracker operation. -/
def onBlurHandlerRun (s : WidgetState) : WidgetState :=
  { s with expanded := false }

/-- The `onOptionSelect` field of `activeDescendantState` in
`Autocomplete.tsx` (lines 69 to 77): `activeDescendant.update(id)` then
`onOptionSelect?.(newValue)`. `hostCb` records whether the optional host
callback was supplied; the second component is the list of values passed to
the host callback. -/
def containerOnOptionSelect {V : Type} (hostCb : Bool) (t : Tracker)
    (id : Option String) (newValue : V) : Tracker × List V :=
  (Tracker.update id t, if hostCb then [newValue] else [])

/-- Runs a sequence of selection-entry-point invocations (id and value pairs)
through `containerOnOptionSelect`, accumulating the values handed to the
host callback. -/
def runSelections {V : Type} (hostCb : Bool) (t : Tracker)
    (calls : List (String × V)) : Tracker × List V :=
  calls.foldl
    (fun acc c =>
      let r := containerOnOptionSelect hostCb acc.1 (some c.1) c.2
      (r.1, acc.2 ++ r.2))
    (t, [])

/-- The `checkIfActive` default of `ActiveDescendantContext`
(`src/unnamed/part_000`, lines 11 to 18): outside production it throws;
in production it returns `false`. -/
def checkIfActiveDefault (nodeEnv : String) (_id : String) : Except String Bool :=
  if nodeEnv ≠ "production" then
    Except.error "ActiveDescendantContext was initialized without a Provider! You likely rendered an AutocompleteOption without a parent Autocomplete."
  else
    Except.ok false

/-- The `onOptionSelect` default of `ActiveDescendantContext`
(`src/unnamed/part_000`, lines 19 to 25): outside production it throws;
in production it does nothing. -/
def onOptionSelectDefault (V : Type) (nodeEnv : String) (_id : String)
    (_value : V) : Except String Unit :=
  if nodeEnv ≠ "production" then
    Except.error "ActiveDescendantContext was initialized without a Provider! You likely rendered an AutocompleteOption without a parent Autocomplete."
  else
    Except.ok ()

/-- JavaScript `a || b` for an optional string prop: an absent or empty
(falsy) string falls back to `b`. Used for `id || autoId` in both components
and for `children || value.toString()`. -/
def jsOrString (a : Option String) (b : String) : String :=
  match a with
  | some s => if s = "" then b else s
  | none => b

/-- Props of `AutocompleteOption` (`src/unnamed/part_001`, lines 4 to 9):
optional id, value payload, optional display content (modelled as its text),
optional class. -/
structure OptionProps (V : Type) where
  id : Option String
  value : V
  children : Option String
  className : Option String
deriving DecidableEq

/-- The rendered `li` produced by `AutocompleteOption`: its attributes and,
for each mouse handler, the (id, value) invocation it makes on the
`onOptionSelect` entry point of the context (`none` = no handler attached). -/
structure RenderedOption (V : Type) where
  id : String
  role : String
  ariaSelected : Bool
  className : Option String
  content : String
  onMouseDown : Option (String × V)
  onClick : Option (String × V)
  onMouseUp : Option (String × V)
deriving DecidableEq

/-- `AutocompleteOption` (`src/unnamed/part_001`, lines 11 to 40):
`htmlId = id || autoId`; `selected = checkIfActive(htmlId)`; one `onClick`
closure invoking `onOptionSelect(htmlId, value)` is attached to both
`onClick` and `onMouseDown` (and nothing to mouse-up); content is
`children || value.toString()`. `toStr` stands for `.toString()` on the
value payload. -/
def AutocompleteOption.render {V : Type} (toStr : V → String)
    (checkIfActive : String → Bool) (autoId : String) (p : OptionProps V) :
    RenderedOption V :=
  let htmlId := jsOrString p.id autoId
  { id := htmlId
    role := "option"
    ariaSelected := checkIfActive htmlId
    className := p.className
    content :=
      match p.children with
      | some c => if c = "" then toStr p.value else c
      | none => toStr p.value
    onMouseDown := some (htmlId, p.value)
    onClick := some (htmlId, p.value)
    onMouseUp := none }

/-- The invocations an option makes on the selection entry point when a
pointer interaction delivers a mousedown and then a click to it (standard
DOM event order for a pointer press on one element). -/
def pointerDispatch {V : Type} (o : RenderedOption V) : List (String × V) :=
  o.onMouseDown.toList ++ o.onClick.toList

/-- The `classes` prop of `Autocomplete` (`CssClassesTargets`,
`Autocomplete.tsx` lines 7 to 13). -/
structure CssClassesTargets where
  container : Option String
  input : Option String
  listbox : Option String
  label : Option String
  portal : Option String
deriving DecidableEq

/-- The attributes the `Autocomplete` input element renders with
(`Autocomplete.tsx`, lines 120 to 135). `ariaActivedescendant = none` means
the attribute is absent (`activeDescendant.current ?? undefined`). -/
structure InputAttrs where
  className : Option String
  ariaActivedescendant : Option String
  ariaAutocomplete : String
  ariaControls : String
  ariaExpanded : Bool
  autoComplete : String
  id : String
  role : String
  value : Option String
deriving DecidableEq

/-- The attributes the listbox `ul` renders with (`Autocomplete.tsx`, lines
139 to 145). -/
structure ListboxAttrs where
  ariaLabelledby : String
  className : Option String
  id : String
  role : String
deriving DecidableEq

/-- One render of the whole widget: optional label text, the input, the
listbox (present only while expanded) and the rendered options (present only
while expanded). -/
structure AutocompleteRender (V : Type) where
  label : Option String
  input : InputAttrs
  listbox : Option ListboxAttrs
  options : List (RenderedOption V)
deriving DecidableEq

/-- The render of `Autocomplete` (`Autocomplete.tsx`, lines 117 to 152):
`comboboxId = id || autoId`, `listboxId` appends `-listbox`; the label
renders only when truthy; the input carries the combobox ARIA contract; the
`ul` (role listbox) and the children render only while expanded; each child
option is rendered under the provided context, whose `checkIfActive` is
`activeDescendant.check`. Children are paired with the generated id of each
option (its `useId`). -/
def Autocomplete.render {V : Type} (toStr : V → String) (idProp : Option String)
    (autoId : String) (classes : CssClassesTargets) (label : Option String)
    (value : Option String) (expanded : Bool) (t : Tracker)
    (children : List (OptionProps V × String)) : AutocompleteRender V :=
  let comboboxId := jsOrString idProp autoId
  let listboxId := comboboxId ++ "-listbox"
  { label :=
      match label with
      | some s => if s = "" then none else some s
      | none => none
    input :=
      { className := classes.input
        ariaActivedescendant := t.current
        ariaAutocomplete := "list"
        ariaControls := listboxId
        ariaExpanded := expanded
        autoComplete := "off"
        id := comboboxId
        role := "combobox"
        value := value }
    listbox :=
      if expanded then
        some
          { ariaLabelledby := comboboxId
            className := classes.listbox
            id := listboxId
            role := "listbox" }
      else none
    options :=
      if expanded then
        children.map (fun pc => AutocompleteOption.render toStr (Tracker.check t) pc.2 pc.1)
      else [] }

/-- The identity textual representation, used to instantiate `toStr` at
`V = String` in concrete evaluations. -/
def idString : String → String :=
  fun s => s

/-- A membership query that reports nothing active, used to instantiate
`checkIfActive` in concrete evaluations. -/
def constFalse : String → Bool :=
  fun _ => false

/-- Claim C1 counterexample: the blur handler collapses the listbox but does
not invoke any tracker operation, so from a state whose active descendant is
"a" the active id is still "a" (not null) after the blur handler runs; and
the selection entry point of the container sets the active id to the id of
the selected option, not to null. -/
theorem c1_counterexample :
    (onBlurHandlerRun { expanded := true, tracker := { current := some "a" } }).tracker.current
      = some "a"
    ∧ some "a" ≠ (none : Option String)
    ∧ (containerOnOptionSelect true { current := none } (some "b") "v").1.current = some "b" :=
  ⟨rfl, by decide, rfl⟩

/-- Claim C1 (amended): on Escape while expanded the tracker is cleared and no
id is active afterwards; the blur handler collapses the listbox but leaves
the active id of the tracker unchanged; selection force-sets the active id
to the id of the selected option. -/
theorem c1_amended (s : WidgetState) (options : List String) (e : KeyEvent)
    (t : Tracker) (i v : String)
    (hexp : s.expanded = true) (hkey : e.key = KeyCode.ESC) :
    (onBlurHandlerRun s).expanded = false
    ∧ (onBlurHandlerRun s).tracker = s.tracker
    ∧ (onKeyDownHandlerRun options e s).tracker.current = none
    ∧ (containerOnOptionSelect true t (some i) v).1.current = some i := by
  have h1 : KeyCode.ESC ≠ KeyCode.DOWN := by decide
  have h2 : KeyCode.ESC ≠ KeyCode.UP := by decide
  refine ⟨rfl, rfl, ?_, rfl⟩
  simp [onKeyDownHandlerRun, trackActiveDescendant, hexp, hkey, h1, h2,
    applyCall, Tracker.clear]

/-- Claim C1 amended witness at a concrete state, option list and event. -/
theorem c1_amended_witness :
    (onBlurHandlerRun { expanded := true, tracker := { current := some "a" } }).expanded = false
    ∧ (onBlurHandlerRun { expanded := true, tracker := { current := some "a" } }).tracker
        = ({ current := some "a" } : Tracker)
    ∧ (onKeyDownHandlerRun ["a", "b"] { key := "Escape", altKey := false }
        { expanded := true, tracker := { current := some "a" } }).tracker.current = none
    ∧ (containerOnOptionSelect true { current := some "a" } (some "b") "v").1.current
        = some "b" :=
  c1_amended { expanded := true, tracker := { current := some "a" } } ["a", "b"]
    { key := "Escape", altKey := false } { current := some "a" } "b" "v" rfl rfl

/-- Claim C2: with no provider established, the context defaults throw outside
production for any call to checkIfActive or onOptionSelect, and in
production checkIfActive returns false for every id and onOptionSelect is a
no-op. -/
theorem c2_context_defaults (nodeEnv id v w j : String)
    (hdev : nodeEnv ≠ "production") :
    (∃ msg, checkIfActiveDefault nodeEnv id = Except.error msg)
    ∧ (∃ msg, onOptionSelectDefault String nodeEnv id v = Except.error msg)
    ∧ checkIfActiveDefault "production" j = Except.ok false
    ∧ onOptionSelectDefault String "production" j w = Except.ok () := by
  refine ⟨?_, ?_, ?_, ?_⟩ <;>
    simp [checkIfActiveDefault, onOptionSelectDefault, hdev]

/-- Claim C2 witness at a concrete non-production build mode. -/
theorem c2_context_defaults_witness :
    (∃ msg, checkIfActiveDefault "development" "x" = Except.error msg)
    ∧ (∃ msg, onOptionSelectDefault String "development" "x" "v" = Except.error msg)
    ∧ checkIfActiveDefault "production" "y" = Except.ok false
    ∧ onOptionSelectDefault String "production" "y" "w" = Except.ok () :=
  c2_context_defaults "development" "x" "v" "w" "y" (by decide)

/-- Claim C3: on every render, collapsed or expanded, the input carries role
combobox, aria-autocomplete list, aria-expanded equal to the expand state,
aria-controls equal to the listbox id, and aria-activedescendant equal to
the active id of the tracker (absent when none); the listbox, rendered with
role listbox and the controlled id exactly while expanded, is absent while
collapsed; and every rendered option carries role option with aria-selected
equal to the check result of the tracker for the id of that option. -/
theorem c3_aria_contract (V : Type) (toStr : V → String) (idProp : Option String)
    (autoId : String) (classes : CssClassesTargets) (label : Option String)
    (value : Option String) (expanded : Bool) (t : Tracker)
    (children : List (OptionProps V × String)) :
    (Autocomplete.render toStr idProp autoId classes label value expanded t
      children).input.role = "combobox"
    ∧ (Autocomplete.render toStr idProp autoId classes label value expanded t
        children).input.ariaAutocomplete = "list"
    ∧ (Autocomplete.render toStr idProp autoId classes label value expanded t
        children).input.ariaExpanded = expanded
    ∧ (Autocomplete.render toStr idProp autoId classes label value expanded t
        children).input.ariaControls = jsOrString idProp autoId ++ "-listbox"
    ∧ (Autocomplete.render toStr idProp autoId classes label value expanded t
        children).input.ariaActivedescendant = t.current
    ∧ (Autocomplete.render toStr idProp autoId classes label value expanded t
        children).listbox
        = (if expanded then
            some
              { ariaLabelledby := jsOrString idProp autoId
                className := classes.listbox
                id := jsOrString idProp autoId ++ "-listbox"
                role := "listbox" }
          else none)
    ∧ (Autocomplete.render toStr idProp autoId classes label value expanded t
        children).options.all
          (fun o => (o.role == "option")
            && (o.ariaSelected == Tracker.check t o.id)) = true := by
  refine ⟨rfl, rfl, rfl, rfl, rfl, rfl, ?_⟩
  cases expanded
  · rfl
  · rw [List.all_eq_true]
    intro o ho
    simp only [Autocomplete.render, List.mem_map, if_true] at ho
    obtain ⟨pc, hmem, hEq⟩ := ho
    subst hEq
    simp [AutocompleteOption.render]

/-- Claim C4: for an ArrowDown or ArrowUp keydown while expanded, default
behavior is suppressed, the widget stays expanded, and the keystroke is
delegated to next (ArrowDown) or prev (ArrowUp); while collapsed the same
event causes no suppression and no delegation. -/
theorem c4_arrow_navigation (e : KeyEvent)
    (hd : e.key = KeyCode.DOWN ∨ e.key = KeyCode.UP) :
    (trackActiveDescendant true e).preventDefault = true
    ∧ (trackActiveDescendant true e).expanded = true
    ∧ (trackActiveDescendant true e).calls
        = [if e.key = KeyCode.DOWN then TrackerCall.next else TrackerCall.prev]
    ∧ (trackActiveDescendant false e).preventDefault = false
    ∧ (trackActiveDescendant false e).calls = [] := by
  have h1 : KeyCode.UP ≠ KeyCode.DOWN := by decide
  have h2 : KeyCode.DOWN ≠ KeyCode.ENTER := by decide
  have h3 : KeyCode.UP ≠ KeyCode.ENTER := by decide
  rcases hd with h | h <;>
    simp [trackActiveDescendant, h, h1, h2, h3]

/-- Claim C4 witness at a concrete ArrowDown event. -/
theorem c4_arrow_navigation_witness :
    (trackActiveDescendant true { key := "ArrowDown", altKey := false }).preventDefault = true
    ∧ (trackActiveDescendant true { key := "ArrowDown", altKey := false }).expanded = true
    ∧ (trackActiveDescendant true { key := "ArrowDown", altKey := false }).calls
        = [if ({ key := "ArrowDown", altKey := false } : KeyEvent).key = KeyCode.DOWN
            then TrackerCall.next else TrackerCall.prev]
    ∧ (trackActiveDescendant false { key := "ArrowDown", altKey := false }).preventDefault
        = false
    ∧ (trackActiveDescendant false { key := "ArrowDown", altKey := false }).calls = [] :=
  c4_arrow_navigation { key := "ArrowDown", altKey := false } (Or.inl rfl)

/-- Claim C5: the expand/collapse state machine starts collapsed; focus sets
the state to the auto-expand flag; blur collapses; Escape while expanded
collapses; Alt+Enter while collapsed expands. -/
theorem c5_expand_collapse (autoExpand : Bool) (s1 s2 s3 s4 : WidgetState)
    (options : List String) (e3 e4 : KeyEvent)
    (h3e : s3.expanded = true) (h3k : e3.key = KeyCode.ESC)
    (h4e : s4.expanded = false) (h4k : e4.key = KeyCode.ENTER)
    (h4a : e4.altKey = true) :
    initialWidgetState.expanded = false
    ∧ (onFocusHandlerRun autoExpand s1).expanded = autoExpand
    ∧ (onBlurHandlerRun s2).expanded = false
    ∧ (onKeyDownHandlerRun options e3 s3).expanded = false
    ∧ (onKeyDownHandlerRun options e4 s4).expanded = true := by
  have h1 : KeyCode.ESC ≠ KeyCode.DOWN := by decide
  have h2 : KeyCode.ESC ≠ KeyCode.UP := by decide
  refine ⟨rfl, rfl, rfl, ?_, ?_⟩
  · simp [onKeyDownHandlerRun, trackActiveDescendant, h3e, h3k, h1, h2]
  · simp [onKeyDownHandlerRun, trackActiveDescendant, h4e, h4k, h4a]

/-- Claim C5 witness at concrete states and events. -/
theorem c5_expand_collapse_witness :
    initialWidgetState.expanded = false
    ∧ (onFocusHandlerRun true initialWidgetState).expanded = true
    ∧ (onBlurHandlerRun initialWidgetState).expanded = false
    ∧ (onKeyDownHandlerRun ["a"] { key := "Escape", altKey := false }
        { expanded := true, tracker := { current := none } }).expanded = false
    ∧ (onKeyDownHandlerRun ["a"] { key := "Enter", altKey := true }
        initialWidgetState).expanded = true :=
  c5_expand_collapse true initialWidgetState initialWidgetState
    { expanded := true, tracker := { current := none } } initialWidgetState
    ["a"] { key := "Escape", altKey := false } { key := "Enter", altKey := true }
    rfl rfl rfl rfl rfl

/-- Claim C6: a pointer-down on an option invokes the selection entry point
of the container with the own id of the option and its value payload, and no
handler is attached to pointer-up. -/
theorem c6_pointer_down_selection (V : Type) (toStr : V → String)
    (check : String → Bool) (autoId : String) (p : OptionProps V) :
    (AutocompleteOption.render toStr check autoId p).onMouseDown
      = some ((AutocompleteOption.render toStr check autoId p).id, p.value)
    ∧ (AutocompleteOption.render toStr check autoId p).onMouseUp = none :=
  ⟨rfl, rfl⟩

/-- Claim C7: an Enter keydown while expanded delegates to click and leaves
the whole widget state unchanged: the keydown dispatch reports the same
expanded flag, no default suppression, exactly one click delegation, and the
handler maps the state to itself. -/
theorem c7_enter_delegates_click (s : WidgetState) (options : List String)
    (e : KeyEvent) (hexp : s.expanded = true) (hkey : e.key = KeyCode.ENTER) :
    (trackActiveDescendant s.expanded e).calls = [TrackerCall.click]
    ∧ (trackActiveDescendant s.expanded e).expanded = s.expanded
    ∧ (trackActiveDescendant s.expanded e).preventDefault = false
    ∧ onKeyDownHandlerRun options e s = s := by
  have h1 : KeyCode.ENTER ≠ KeyCode.DOWN := by decide
  have h2 : KeyCode.ENTER ≠ KeyCode.UP := by decide
  have h3 : KeyCode.ENTER ≠ KeyCode.ESC := by decide
  refine ⟨?_, ?_, ?_, ?_⟩ <;>
    simp [onKeyDownHandlerRun, trackActiveDescendant, hexp, hkey, h1, h2, h3,
      applyCall]
  ext1 <;> simp [hexp]

/-- Claim C7 witness at a concrete expanded state and Enter event. -/
theorem c7_enter_delegates_click_witness :
    (trackActiveDescendant true { key := "Enter", altKey := false }).calls
      = [TrackerCall.click]
    ∧ (trackActiveDescendant true { key := "Enter", altKey := false }).expanded = true
    ∧ (trackActiveDescendant true { key := "Enter", altKey := false }).preventDefault
        = false
    ∧ onKeyDownHandlerRun ["a"] { key := "Enter", altKey := false }
        { expanded := true, tracker := { current := some "a" } }
        = { expanded := true, tracker := { current := some "a" } } :=
  c7_enter_delegates_click { expanded := true, tracker := { current := some "a" } }
    ["a"] { key := "Enter", altKey := false } rfl rfl

/-- Claim C8: a selection reported through the selection entry point of the
container with id i and value v force-sets the active id to i via update and
hands exactly v, unmodified, to the host callback. -/
theorem c8_selection_entry (V : Type) (t : Tracker) (i : String) (v : V) :
    containerOnOptionSelect true t (some i) v = (Tracker.update (some i) t, [v])
    ∧ (Tracker.update (some i) t).current = some i
    ∧ (containerOnOptionSelect true t (some i) v).2 = [v] :=
  ⟨rfl, rfl, rfl⟩

/-- Claim C9 counterexample: supplying the empty string as identifier does
not render the option with that identifier; the generated id is used
instead (JavaScript or-fallback treats the empty string as absent). -/
theorem c9_counterexample :
    (AutocompleteOption.render idString constFalse "generated-1"
      { id := some "", value := "payload", children := none, className := none }).id
      = "generated-1"
    ∧ ("generated-1" : String) ≠ "" :=
  ⟨rfl, by decide⟩

/-- Claim C9 (amended): for every nonempty supplied identifier the option
renders with exactly that identifier; when no identifier is supplied, or the
supplied identifier is empty, the generated one is used; the display content
equals the explicit content when nonempty content is given, and falls back
to the textual representation of the value when content is absent or
empty. -/
theorem c9_amended (V : Type) (toStr : V → String) (check : String → Bool)
    (autoId : String) (p : OptionProps V) (s c : String)
    (hs : s ≠ "") (hc : c ≠ "") :
    (p.id = some s → (AutocompleteOption.render toStr check autoId p).id = s)
    ∧ (p.id = none → (AutocompleteOption.render toStr check autoId p).id = autoId)
    ∧ (p.id = some "" → (AutocompleteOption.render toStr check autoId p).id = autoId)
    ∧ (p.children = none →
        (AutocompleteOption.render toStr check autoId p).content = toStr p.value)
    ∧ (p.children = some c →
        (AutocompleteOption.render toStr check autoId p).content = c)
    ∧ (p.children = some "" →
        (AutocompleteOption.render toStr check autoId p).content = toStr p.value) := by
  refine ⟨?_, ?_, ?_, ?_, ?_, ?_⟩ <;> intro h <;>
    simp [AutocompleteOption.render, jsOrString, h, hs, hc]

/-- Claim C9 amended witness at concrete props. -/
theorem c9_amended_witness :
    ((some "x" : Option String) = some "x" →
      (AutocompleteOption.render idString constFalse "gen"
        { id := some "x", value := "val", children := some "shown", className := none }).id
        = "x")
    ∧ ((some "x" : Option String) = none →
        (AutocompleteOption.render idString constFalse "gen"
          { id := some "x", value := "val", children := some "shown", className := none }).id
          = "gen")
    ∧ ((some "x" : Option String) = some "" →
        (AutocompleteOption.render idString constFalse "gen"
          { id := some "x", value := "val", children := some "shown", className := none }).id
          = "gen")
    ∧ ((some "shown" : Option String) = none →
        (AutocompleteOption.render idString constFalse "gen"
          { id := some "x", value := "val", children := some "shown", className := none }).content
          = idString "val")
    ∧ ((some "shown" : Option String) = some "shown" →
        (AutocompleteOption.render idString constFalse "gen"
          { id := some "x", value := "val", children := some "shown", className := none }).content
          = "shown")
    ∧ ((some "shown" : Option String) = some "" →
        (AutocompleteOption.render idString constFalse "gen"
          { id := some "x", value := "val", children := some "shown", className := none }).content
          = idString "val") :=
  c9_amended String idString constFalse "gen"
    { id := some "x", value := "val", children := some "shown", className := none }
    "x" "shown" (by decide) (by decide)

/-- Claim C10: the option attaches the same selection closure to mouse-down
and click, so one pointer interaction that delivers both events invokes the
selection entry point twice with the same id and value, and the host
callback receives the value twice. -/
theorem c10_double_invocation (V : Type) (toStr : V → String)
    (check : String → Bool) (autoId : String) (p : OptionProps V) (t : Tracker) :
    (AutocompleteOption.render toStr check autoId p).onClick
      = (AutocompleteOption.render toStr check autoId p).onMouseDown
    ∧ pointerDispatch (AutocompleteOption.render toStr check autoId p)
      = [((AutocompleteOption.render toStr check autoId p).id, p.value),
          ((AutocompleteOption.render toStr check autoId p).id, p.value)]
    ∧ runSelections true t
        (pointerDispatch (AutocompleteOption.render toStr check autoId p))
      = ({ current := some (AutocompleteOption.render toStr check autoId p).id },
          [p.value, p.value]) :=
  ⟨rfl, rfl, rfl⟩
